import Mathlib

/-!
Verification of the observatory control script (observatory.py).

The script drives an astronomical observatory through three external
collaborators: an INDI device server (property writes and reads), a
Simbad-style target resolver, and a PHD2-style guide controller reached
over HTTP. The script itself is single-threaded and strictly sequential,
so we embed it as a trace semantics: every externally observable action
(device property write, device property read, HTTP request, operator
prompt, log line, directory creation, sleep) becomes one event, and each
Python function becomes a Lean function returning the list of events it
emits, together with its return value. External inputs (resolver answers,
the computed altitude, the operator reply on stdin, the guide-controller
status tokens and the wall-clock timestamp string) are collected in an
environment record, so a run of a command is a pure function of the
environment and the arguments.

A Python KeyError (the filter-table lookup in capture_image) aborts the
whole command; we model a function that can raise as returning an Option,
and the sequence loop threads a Bool recording whether execution
completed normally (true) or an exception escaped (false), together with
the events emitted before the exception.
-/

/-- Resolved sky coordinates (right ascension and declination in degrees),
the return value of the target resolver. Rationals stand in for the
floating-point degrees; none of the verified control flow depends on
rounding. -/
structure Coords where
  ra : Rat
  dec : Rat
deriving DecidableEq, Repr

/-- One externally observable action of the script. -/
inductive Ev where
  /-- indi.send_new_switch device property value -/
  | sendSwitch (device propName value : String)
  /-- indi.send_new_number device property field value -/
  | sendNumber (device propName field : String) (value : Int)
  /-- indi.send_new_number with a dict payload (the slew command). -/
  | sendNumberPair (device propName : String) (ra dec : Rat)
  /-- indi.send_new_text device property field value -/
  | sendText (device propName field value : String)
  /-- indi.get_device(...).get_property(...) read -/
  | getProp (device propName : String)
  /-- time.sleep seconds -/
  | sleep (seconds : Nat)
  /-- requests.get against the PHD2 base URL; the path identifies the call. -/
  | httpGet (path : String)
  /-- input(...) prompt asking to continue at the given altitude. -/
  | promptOperator (altitude : Rat)
  /-- logging.info message -/
  | logInfo (msg : String)
  /-- logging.error message -/
  | logError (msg : String)
  /-- os.makedirs directory -/
  | makeDirs (path : String)
deriving DecidableEq, Repr

/-- External inputs of one command run: what the resolver, the mount
driver, stdin, the guide controller and the clock answer. -/
structure Env where
  /-- Simbad.query_object: some coordinates, or none when the object is
  unknown (an empty result table is falsy in the source). -/
  resolve : String → Option Coords
  /-- Altitude (degrees) that check_altitude computes for the resolved
  coordinates from the mount location and the current time. -/
  locAltitude : Coords → Rat
  /-- The operator reply read by input() at the low-altitude prompt. -/
  promptResponse : String
  /-- Status token of the set_dec_guide_mode call. -/
  decModeStatus : String
  /-- Status token of the guide call. -/
  guideStatus : String
  /-- Status token of the stop_capture call. -/
  stopStatus : String
  /-- datetime.now().strftime of the pattern YYYYMMDD_HHMMUT. -/
  timestamp : String

/-- Python str.lower, restricted to the characters Lean lowercases:
lowercase every character of the string. -/
def strLower (s : String) : String :=
  String.mk (s.data.map Char.toLower)

/-- Decimal digits of a natural number, most significant first, with
explicit fuel so the definition is structural (fuel at least the number
itself is enough, since the recursion divides by ten). -/
def decRepGo : Nat → Nat → List Char
  | _, 0 => ['0']
  | 0, n => [Nat.digitChar n]
  | fuel + 1, n =>
    if n < 10 then [Nat.digitChar n]
    else decRepGo fuel (n / 10) ++ [Nat.digitChar (n % 10)]

/-- Decimal representation of a natural number as a character list. -/
def decRep (n : Nat) : List Char :=
  decRepGo n n

/-- Python format specifier 04d: the decimal representation, left-padded
with zeros to a minimum width of four (wider numbers are not truncated). -/
def pyFormat04 (n : Nat) : String :=
  String.mk (List.replicate (4 - (decRep n).length) '0' ++ decRep n)

/-- The fixed filter table of the script: filters = ... -/
def filtersTable : List (String × Nat) :=
  [("L", 1), ("R", 2), ("G", 3), ("B", 4), ("H", 5), ("O", 6)]

/-- Python dict lookup filters[name], as an Option (none is the KeyError). -/
def filters (name : String) : Option Nat :=
  filtersTable.lookup name

/-- get_coordinates: query the resolver; on failure log an error and
return None. -/
def get_coordinates (env : Env) (object_name : String) : List Ev × Option Coords :=
  match env.resolve object_name with
  | some coords => ([], some coords)
  | none => ([.logError ("Object " ++ object_name ++ " not found.")], none)

/-- check_altitude: read the mount geographic location and transform the
coordinates to the altazimuth frame; the resulting altitude in degrees is
supplied by the environment. -/
def check_altitude (env : Env) (coords : Coords) : List Ev × Rat :=
  ([.getProp "iOptron IEQ Pro" "GEOGRAPHIC_COORD"], env.locAltitude coords)

/-- slew_to_target: send the equatorial target coordinates to the mount,
wait ten seconds, log arrival. -/
def slew_to_target (coords : Coords) : List Ev :=
  [.sendNumberPair "iOptron IEQ Pro" "EQUATORIAL_EOD_COORD" coords.ra coords.dec,
   .sleep 10,
   .logInfo "Slewed to target coordinates."]

/-- start_guiding: GET /guide, succeed iff the status token is OK. -/
def start_guiding (env : Env) : List Ev × Bool :=
  ([.httpGet "/guide"], env.guideStatus == "OK")

/-- stop_guiding: GET /stop_capture, succeed iff the status token is OK. -/
def stop_guiding (env : Env) : List Ev × Bool :=
  ([.httpGet "/stop_capture"], env.stopStatus == "OK")

/-- enable_multi_star_guiding: GET /set_dec_guide_mode with mode multistar,
succeed iff the status token is OK. -/
def enable_multi_star_guiding (env : Env) : List Ev × Bool :=
  ([.httpGet "/set_dec_guide_mode?mode=multistar"], env.decModeStatus == "OK")

/-- The frame file path capture_image builds:
directory/filtername_timestamp_countPadded.fits. -/
def frameFile (env : Env) (directory filter_name : String) (count : Nat) : String :=
  directory ++ "/" ++ filter_name ++ "_" ++ env.timestamp ++ "_" ++ pyFormat04 count ++ ".fits"

/-- capture_image: look the filter up in the table (a missing key raises,
modelled as none, before any device action), move the filter wheel, wait,
start the exposure, wait the exposure plus readout margin, command the
save of the frame under the deterministic file name, log the capture. -/
def capture_image (env : Env) (exposure_time : Nat) (filter_name directory : String)
    (count : Nat) : Option (List Ev) :=
  match filters filter_name with
  | none => none
  | some filter_position =>
    some [.sendNumber "ZWO EFW" "FILTER_SLOT" "FILTER_SLOT_VALUE" filter_position,
          .sleep 2,
          .sendNumber "ZWO CCD ASI183MM Pro" "CCD_EXPOSURE" "CCD_EXPOSURE_VALUE" exposure_time,
          .sleep (exposure_time + 2),
          .sendText "ZWO CCD ASI183MM Pro" "CCD_SAVE" "CCD_SAVE_PATH"
            (frameFile env directory filter_name count),
          .logInfo ("Captured " ++ frameFile env directory filter_name count)]

/-- dither: pulse the north-south axis, wait one second, pulse the
west-east axis, wait one second, then zero both axes. -/
def dither : List Ev :=
  [.sendNumber "iOptron IEQ Pro" "TELESCOPE_MOTION_NS" "TELESCOPE_MOTION_NS_VALUE" 1,
   .sleep 1,
   .sendNumber "iOptron IEQ Pro" "TELESCOPE_MOTION_WE" "TELESCOPE_MOTION_WE_VALUE" 1,
   .sleep 1,
   .sendNumber "iOptron IEQ Pro" "TELESCOPE_MOTION_NS" "TELESCOPE_MOTION_NS_VALUE" 0,
   .sendNumber "iOptron IEQ Pro" "TELESCOPE_MOTION_WE" "TELESCOPE_MOTION_WE_VALUE" 0]

/-- create_directory: build base_directory/targetname_timestamp, create it,
return its name. -/
def create_directory (env : Env) (base_directory target_name : String) : List Ev × String :=
  let directory_name := base_directory ++ "/" ++ target_name ++ "_" ++ env.timestamp
  ([.makeDirs directory_name], directory_name)

/-- check_continue_sequence: below twenty degrees ask the operator and
continue only on a reply whose lowercasing is the single letter y; at
twenty degrees or above continue silently. -/
def check_continue_sequence (env : Env) (altitude : Rat) : List Ev × Bool :=
  if altitude < 20 then
    ([.promptOperator altitude], strLower env.promptResponse == "y")
  else
    ([], true)

/-- observatory_target: resolve, altitude-gate, slew or abort. -/
def observatory_target (env : Env) (target_name : String) : List Ev :=
  match get_coordinates env target_name with
  | (evs, none) => evs ++ [.logError "Target not found."]
  | (evs, some coords) =>
    let a := check_altitude env coords
    let c := check_continue_sequence env a.2
    if c.2 then
      evs ++ a.1 ++ c.1 ++ slew_to_target coords
    else
      evs ++ a.1 ++ c.1 ++ [.logInfo "Aborted slew due to low altitude."]

/-- The capture loop of observatory_sequence: for i in range(exposure_count),
dither when i is nonzero, then capture frame i+1. The first argument is
the current loop index i, the second the number of iterations left; the
Bool records whether the loop completed without a raised KeyError, and on
a raise the events before it are kept. -/
def runLoop (env : Env) (filter_name directory : String) (exposure_time : Nat) :
    Nat → Nat → List Ev × Bool
  | _, 0 => ([], true)
  | i, remaining + 1 =>
    let dEvs := if i == 0 then [] else dither
    match capture_image env exposure_time filter_name directory (i + 1) with
    | none => (dEvs, false)
    | some evs =>
      let rest := runLoop env filter_name directory exposure_time (i + 1) remaining
      (dEvs ++ evs ++ rest.1, rest.2)

/-- observatory_sequence: resolve the target, compute the altitude, pass
the safety gate, create the session directory, enable multi-star guide
mode and start guiding (both results are ignored by the source), run the
capture loop, stop guiding and log completion. The Bool records normal
completion (false when a KeyError escaped the capture loop). -/
def observatory_sequence (env : Env) (target base_directory filter_name : String)
    (exposure_count exposure_time : Nat) : List Ev × Bool :=
  match get_coordinates env target with
  | (evs, none) => (evs ++ [.logError "Target not found."], true)
  | (evs, some coords) =>
    let a := check_altitude env coords
    let c := check_continue_sequence env a.2
    if c.2 then
      let d := create_directory env base_directory target
      let e := enable_multi_star_guiding env
      let s := start_guiding env
      let l := runLoop env filter_name d.2 exposure_time 0 exposure_count
      if l.2 then
        let st := stop_guiding env
        (evs ++ a.1 ++ c.1 ++ d.1 ++ e.1 ++ s.1 ++ l.1 ++ st.1 ++
           [.logInfo ("Sequence complete. Images stored in " ++ d.2 ++ ".")], true)
      else
        (evs ++ a.1 ++ c.1 ++ d.1 ++ e.1 ++ s.1 ++ l.1, false)
    else
      (evs ++ a.1 ++ c.1 ++ [.logInfo "Sequence aborted due to low altitude."], true)

/-- The event list of capture_image after a successful filter lookup. -/
def captureEvs (env : Env) (exposure_time : Nat) (filter_name directory : String)
    (filter_position : Nat) (count : Nat) : List Ev :=
  [.sendNumber "ZWO EFW" "FILTER_SLOT" "FILTER_SLOT_VALUE" filter_position,
   .sleep 2,
   .sendNumber "ZWO CCD ASI183MM Pro" "CCD_EXPOSURE" "CCD_EXPOSURE_VALUE" exposure_time,
   .sleep (exposure_time + 2),
   .sendText "ZWO CCD ASI183MM Pro" "CCD_SAVE" "CCD_SAVE_PATH"
     (frameFile env directory filter_name count),
   .logInfo ("Captured " ++ frameFile env directory filter_name count)]

/-- A device command: any property write (switch, number, pair or text). -/
def Ev.isDeviceCmd : Ev → Bool
  | .sendSwitch .. => true
  | .sendNumber .. => true
  | .sendNumberPair .. => true
  | .sendText .. => true
  | _ => false

/-- The exposure command of a capture: a number write of CCD_EXPOSURE to
the camera. Each capture_image run emits exactly one. -/
def Ev.isCapture : Ev → Bool
  | .sendNumber d p _ _ => d == "ZWO CCD ASI183MM Pro" && p == "CCD_EXPOSURE"
  | _ => false

/-- The opening pulse of a dither: the unit write to the north-south
motion axis. Each dither run emits exactly one. -/
def Ev.isDitherPulse : Ev → Bool
  | .sendNumber d p _ v => d == "iOptron IEQ Pro" && p == "TELESCOPE_MOTION_NS" && v == 1
  | _ => false

/-- A slew command: the equatorial coordinate pair write to the mount. -/
def Ev.isSlew : Ev → Bool
  | .sendNumberPair .. => true
  | _ => false

/-- An operator confirmation prompt. -/
def Ev.isPrompt : Ev → Bool
  | .promptOperator _ => true
  | _ => false

/-- A directory creation. -/
def Ev.isMakeDirs : Ev → Bool
  | .makeDirs _ => true
  | _ => false

/-- An HTTP request to the guide controller. -/
def Ev.isHttp : Ev → Bool
  | .httpGet _ => true
  | _ => false

/-- An error log line. -/
def Ev.isLogError : Ev → Bool
  | .logError _ => true
  | _ => false

/-- The frame file paths a trace commands the camera to save, in order:
the payloads of the CCD_SAVE text writes. -/
def saveTargets (t : List Ev) : List String :=
  t.filterMap fun e =>
    match e with
    | .sendText _ "CCD_SAVE" _ v => some v
    | _ => none

/-- Whether a dither pulse occurs strictly before the first capture
command of the trace. -/
def ditherBeforeCapture : List Ev → Bool
  | [] => false
  | e :: t =>
    if e.isCapture then false
    else if e.isDitherPulse then true
    else ditherBeforeCapture t

/-- The file-name pattern of the specification: the name is
filtername underscore timestamp underscore, then exactly four decimal
digits, then the suffix .fits. -/
def frameNameOk (filter_name ts fname : String) : Bool :=
  let stem := (filter_name ++ "_" ++ ts ++ "_").data
  let fL := fname.data
  let rest := fL.drop stem.length
  (fL.take stem.length == stem) && rest.length == 9 &&
    (rest.take 4).all Char.isDigit && (rest.drop 4 == String.data ".fits")

/-- A concrete environment for witnesses: M42 resolves, altitude 45
degrees, the guide controller answers OK everywhere. -/
def envOk : Env :=
  { resolve := fun s => if s == "M42" then some ⟨83, -5⟩ else none,
    locAltitude := fun _ => 45,
    promptResponse := "y",
    decModeStatus := "OK", guideStatus := "OK", stopStatus := "OK",
    timestamp := "20240807_2230UT" }

/-- envOk with the target at 10 degrees and the operator declining. -/
def envLowDecline : Env :=
  { envOk with locAltitude := fun _ => 10, promptResponse := "n" }

/-- envOk with the target at 10 degrees and the operator answering the
uppercase letter Y. -/
def envLowUpperY : Env :=
  { envOk with locAltitude := fun _ => 10, promptResponse := "Y" }

/-- envOk with the target at 10 degrees and the operator answering yes. -/
def envLowYes : Env :=
  { envOk with locAltitude := fun _ => 10, promptResponse := "yes" }

/-- envOk with a guide controller whose enable and start calls fail. -/
def envGuideFail : Env :=
  { envOk with decModeStatus := "ERR", guideStatus := "ERR" }

/-- The session directory name create_directory builds. -/
def dirName (env : Env) (base_directory target_name : String) : String :=
  base_directory ++ "/" ++ target_name ++ "_" ++ env.timestamp

/-- The frame file name relative to the session directory:
filtername underscore timestamp underscore paddedIndex dot fits. -/
def frameBase (env : Env) (filter_name : String) (count : Nat) : String :=
  filter_name ++ "_" ++ env.timestamp ++ "_" ++ pyFormat04 count ++ ".fits"

/-- The nonzero values a trace writes to the given mount motion axis, in
order: the motion pulses of that axis (the zero writes stop the motion
and are not pulses). -/
def pulseValues (t : List Ev) (axis : String) : List Int :=
  t.filterMap fun e =>
    match e with
    | .sendNumber _ p _ v => if p == axis && v != 0 then some v else none
    | _ => none

theorem create_directory_eq (env : Env) (b tn : String) :
    create_directory env b tn = ([.makeDirs (dirName env b tn)], dirName env b tn) := rfl

theorem capture_image_eq (env : Env) (t : Nat) (f d : String) (c : Nat) (pos : Nat)
    (hf : filters f = some pos) :
    capture_image env t f d c = some (captureEvs env t f d pos c) := by
  unfold capture_image captureEvs
  rw [hf]

theorem capture_image_none (env : Env) (t : Nat) (f d : String) (c : Nat)
    (hf : filters f = none) :
    capture_image env t f d c = none := by
  unfold capture_image
  rw [hf]

@[simp]
theorem countP_isCapture_captureEvs (env : Env) (t : Nat) (f d : String) (p c : Nat) :
    (captureEvs env t f d p c).countP Ev.isCapture = 1 := rfl

@[simp]
theorem countP_isDitherPulse_captureEvs (env : Env) (t : Nat) (f d : String) (p c : Nat) :
    (captureEvs env t f d p c).countP Ev.isDitherPulse = 0 := rfl

@[simp]
theorem countP_isCapture_dither : dither.countP Ev.isCapture = 0 := rfl

@[simp]
theorem countP_isDitherPulse_dither : dither.countP Ev.isDitherPulse = 1 := rfl

@[simp]
theorem countP_isPrompt_captureEvs (env : Env) (t : Nat) (f d : String) (p c : Nat) :
    (captureEvs env t f d p c).countP Ev.isPrompt = 0 := rfl

@[simp]
theorem countP_isPrompt_dither : dither.countP Ev.isPrompt = 0 := rfl

@[simp]
theorem saveTargets_captureEvs (env : Env) (t : Nat) (f d : String) (p c : Nat) :
    saveTargets (captureEvs env t f d p c) = [frameFile env d f c] := rfl

@[simp]
theorem saveTargets_dither : saveTargets dither = [] := rfl

@[simp]
theorem saveTargets_append (a b : List Ev) :
    saveTargets (a ++ b) = saveTargets a ++ saveTargets b := by
  simp [saveTargets]

theorem runLoop_ok (env : Env) (f d : String) (t : Nat) (pos : Nat)
    (hf : filters f = some pos) :
    ∀ r i, (runLoop env f d t i r).2 = true := by
  intro r
  induction r with
  | zero => intro i; rfl
  | succ n ih =>
    intro i
    simp only [runLoop, capture_image_eq env t f d (i + 1) pos hf]
    exact ih (i + 1)

theorem runLoop_zero (env : Env) (f d : String) (t : Nat) (i : Nat) :
    runLoop env f d t i 0 = ([], true) := rfl

theorem runLoop_succ (env : Env) (f d : String) (t : Nat) (pos : Nat)
    (hf : filters f = some pos) (i r : Nat) :
    runLoop env f d t i (r + 1) =
      ((if i == 0 then [] else dither) ++ captureEvs env t f d pos (i + 1) ++
         (runLoop env f d t (i + 1) r).1,
       (runLoop env f d t (i + 1) r).2) := by
  simp only [runLoop, capture_image_eq env t f d (i + 1) pos hf]

theorem runLoop_count_capture (env : Env) (f d : String) (t : Nat) (pos : Nat)
    (hf : filters f = some pos) :
    ∀ r i, (runLoop env f d t i r).1.countP Ev.isCapture = r := by
  intro r
  induction r with
  | zero => intro i; rfl
  | succ n ih =>
    intro i
    rw [runLoop_succ env f d t pos hf]
    simp only [List.countP_append, countP_isCapture_captureEvs, ih (i + 1)]
    cases h : (i == 0) <;> simp <;> omega

theorem runLoop_count_dither_pos (env : Env) (f d : String) (t : Nat) (pos : Nat)
    (hf : filters f = some pos) :
    ∀ r i, i ≠ 0 → (runLoop env f d t i r).1.countP Ev.isDitherPulse = r := by
  intro r
  induction r with
  | zero => intro i _; rfl
  | succ n ih =>
    intro i hi
    rw [runLoop_succ env f d t pos hf]
    have : (i == 0) = false := by simpa using hi
    simp [this, List.countP_append, ih (i + 1) (Nat.succ_ne_zero i)]
    omega

theorem runLoop_count_dither_zero (env : Env) (f d : String) (t : Nat) (pos : Nat)
    (hf : filters f = some pos) :
    ∀ r, (runLoop env f d t 0 r).1.countP Ev.isDitherPulse = r - 1 := by
  intro r
  cases r with
  | zero => rfl
  | succ n =>
    rw [runLoop_succ env f d t pos hf]
    simp [List.countP_append, runLoop_count_dither_pos env f d t pos hf n 1 one_ne_zero]

theorem runLoop_saveTargets (env : Env) (f d : String) (t : Nat) (pos : Nat)
    (hf : filters f = some pos) :
    ∀ r i, saveTargets (runLoop env f d t i r).1 =
      (List.range r).map (fun k => frameFile env d f (i + k + 1)) := by
  intro r
  induction r with
  | zero => intro i; rfl
  | succ n ih =>
    intro i
    rw [runLoop_succ env f d t pos hf]
    simp only [saveTargets_append, saveTargets_captureEvs, ih (i + 1),
      List.range_succ_eq_map, List.map_cons, List.map_map]
    have hfun : ((fun k => frameFile env d f (i + k + 1)) ∘ Nat.succ) =
        fun k => frameFile env d f (i + 1 + k + 1) := by
      funext k
      simp only [Function.comp_apply]
      congr 1
      omega
    cases h : (i == 0) with
    | false => simp [hfun]
    | true => simp [hfun, saveTargets]

theorem gate_high (env : Env) (a : Rat) (h : 20 ≤ a) :
    check_continue_sequence env a = ([], true) := by
  simp [check_continue_sequence, not_lt.mpr h]

theorem gate_low (env : Env) (a : Rat) (h : a < 20) :
    check_continue_sequence env a =
      ([.promptOperator a], strLower env.promptResponse == "y") := by
  simp [check_continue_sequence, h]

theorem seq_resolve_none (env : Env) (target b f : String) (N t : Nat)
    (h : env.resolve target = none) :
    observatory_sequence env target b f N t =
      ([.logError ("Object " ++ target ++ " not found."), .logError "Target not found."],
       true) := by
  simp [observatory_sequence, get_coordinates, h]

theorem seq_run (env : Env) (target b f : String) (N t : Nat) (c : Coords)
    (hres : env.resolve target = some c)
    (hgate : (check_continue_sequence env (env.locAltitude c)).2 = true)
    (hok : (runLoop env f (dirName env b target) t 0 N).2 = true) :
    observatory_sequence env target b f N t =
      ([.getProp "iOptron IEQ Pro" "GEOGRAPHIC_COORD"] ++
         (check_continue_sequence env (env.locAltitude c)).1 ++
         [.makeDirs (dirName env b target),
          .httpGet "/set_dec_guide_mode?mode=multistar",
          .httpGet "/guide"] ++
         (runLoop env f (dirName env b target) t 0 N).1 ++
         [.httpGet "/stop_capture",
          .logInfo ("Sequence complete. Images stored in " ++ dirName env b target ++ ".")],
       true) := by
  simp [observatory_sequence, get_coordinates, hres, check_altitude, create_directory_eq,
    enable_multi_star_guiding, start_guiding, stop_guiding, hgate, hok]

theorem seq_abort (env : Env) (target b f : String) (N t : Nat) (c : Coords)
    (hres : env.resolve target = some c)
    (hgate : (check_continue_sequence env (env.locAltitude c)).2 = false) :
    observatory_sequence env target b f N t =
      ([.getProp "iOptron IEQ Pro" "GEOGRAPHIC_COORD"] ++
         (check_continue_sequence env (env.locAltitude c)).1 ++
         [.logInfo "Sequence aborted due to low altitude."],
       true) := by
  simp [observatory_sequence, get_coordinates, hres, check_altitude, hgate]

theorem target_abort (env : Env) (tn : String) (c : Coords)
    (hres : env.resolve tn = some c)
    (hgate : (check_continue_sequence env (env.locAltitude c)).2 = false) :
    observatory_target env tn =
      [.getProp "iOptron IEQ Pro" "GEOGRAPHIC_COORD"] ++
        (check_continue_sequence env (env.locAltitude c)).1 ++
        [.logInfo "Aborted slew due to low altitude."] := by
  simp [observatory_target, get_coordinates, hres, check_altitude, hgate]

theorem digitChar_isDigit (d : Nat) (h : d < 10) : (Nat.digitChar d).isDigit = true := by
  interval_cases d <;> rfl

theorem decRepGo_len (fuel : Nat) :
    ∀ n k, n ≤ fuel → 1 ≤ k → n < 10 ^ k → (decRepGo fuel n).length ≤ k := by
  induction fuel with
  | zero =>
    intro n k hn hk _
    interval_cases n
    simpa [decRepGo] using hk
  | succ m ih =>
    intro n k hn hk hlt
    match n with
    | 0 => simpa [decRepGo] using hk
    | n + 1 =>
      have hunf : decRepGo (m + 1) (n + 1) =
          if n + 1 < 10 then [Nat.digitChar (n + 1)]
          else decRepGo m ((n + 1) / 10) ++ [Nat.digitChar ((n + 1) % 10)] := rfl
      rw [hunf]
      by_cases hsmall : n + 1 < 10
      · simpa [hsmall] using hk
      · have hk2 : 2 ≤ k := by
          by_contra hcon
          have hk1 : k = 1 := by omega
          subst hk1
          simp at hlt
          omega
        have hdiv_le : (n + 1) / 10 ≤ m := by
          have := Nat.div_lt_self (Nat.succ_pos n) (by norm_num : 1 < 10)
          omega
        have hdiv_lt : (n + 1) / 10 < 10 ^ (k - 1) := by
          rw [Nat.div_lt_iff_lt_mul (by norm_num : 0 < 10)]
          calc n + 1 < 10 ^ k := hlt
            _ = 10 ^ (k - 1) * 10 := by
                rw [← pow_succ]
                congr 1
                omega
        have := ih ((n + 1) / 10) (k - 1) hdiv_le (by omega) hdiv_lt
        simp [hsmall, List.length_append]
        omega

theorem decRepGo_digits (fuel : Nat) :
    ∀ n, n ≤ fuel → (decRepGo fuel n).all Char.isDigit = true := by
  induction fuel with
  | zero =>
    intro n hn
    interval_cases n
    rfl
  | succ m ih =>
    intro n hn
    match n with
    | 0 => rfl
    | n + 1 =>
      have hunf : decRepGo (m + 1) (n + 1) =
          if n + 1 < 10 then [Nat.digitChar (n + 1)]
          else decRepGo m ((n + 1) / 10) ++ [Nat.digitChar ((n + 1) % 10)] := rfl
      rw [hunf]
      by_cases hsmall : n + 1 < 10
      · simp [hsmall, digitChar_isDigit _ hsmall]
      · have hdiv_le : (n + 1) / 10 ≤ m := by
          have := Nat.div_lt_self (Nat.succ_pos n) (by norm_num : 1 < 10)
          omega
        have hmod : (n + 1) % 10 < 10 := Nat.mod_lt _ (by norm_num)
        simp [hsmall, List.all_append, ih _ hdiv_le, digitChar_isDigit _ hmod]

theorem decRep_len_le (n : Nat) (h : n ≤ 9999) : (decRep n).length ≤ 4 :=
  decRepGo_len n n 4 le_rfl (by norm_num) (by norm_num; omega)

theorem pyFormat04_len (n : Nat) (h : n ≤ 9999) : (pyFormat04 n).data.length = 4 := by
  have hle := decRep_len_le n h
  simp [pyFormat04, List.length_append, List.length_replicate]
  omega

theorem pyFormat04_digits (n : Nat) : (pyFormat04 n).data.all Char.isDigit = true := by
  simp [pyFormat04, List.all_append, decRepGo_digits n n le_rfl, decRep]

theorem frameBase_assoc (env : Env) (f : String) (idx : Nat) :
    frameBase env f idx =
      (f ++ "_" ++ env.timestamp ++ "_") ++ (pyFormat04 idx ++ ".fits") := by
  simp only [frameBase, String.append_assoc]

theorem frameFile_assoc (env : Env) (d f : String) (idx : Nat) :
    frameFile env d f idx = d ++ "/" ++ frameBase env f idx := by
  simp only [frameFile, frameBase, String.append_assoc]

theorem frameNameOk_frameBase (env : Env) (f : String) (idx : Nat) (h : idx ≤ 9999) :
    frameNameOk f env.timestamp (frameBase env f idx) = true := by
  have h4 := pyFormat04_len idx h
  rw [frameBase_assoc]
  simp only [frameNameOk, String.data_append]
  rw [List.take_left, List.drop_left]
  simp [List.length_append, h4, pyFormat04_digits idx, List.take_left' h4,
    List.drop_left' h4]

theorem gate_evs_cases (env : Env) (a : Rat) :
    (check_continue_sequence env a).1 = [] ∨
      (check_continue_sequence env a).1 = [.promptOperator a] := by
  by_cases h : a < 20
  · right; simp [check_continue_sequence, h]
  · left; simp [check_continue_sequence, h]

theorem runLoop_countP_zero (env : Env) (f d : String) (t : Nat) (p : Ev → Bool)
    (hcap : ∀ pos c, (captureEvs env t f d pos c).countP p = 0)
    (hdit : dither.countP p = 0) :
    ∀ r i, (runLoop env f d t i r).1.countP p = 0 := by
  intro r
  induction r with
  | zero => intro i; rfl
  | succ n ih =>
    intro i
    cases hfil : filters f with
    | none =>
      simp only [runLoop, capture_image_none env t f d (i + 1) hfil]
      cases h : (i == 0) <;> simp [hdit]
    | some pos =>
      rw [runLoop_succ env f d t pos hfil]
      simp only [List.countP_append, hcap, ih (i + 1)]
      cases h : (i == 0) <;> simp [hdit]

theorem dbc_cons_skip (e : Ev) (t : List Ev)
    (h1 : e.isCapture = false) (h2 : e.isDitherPulse = false) :
    ditherBeforeCapture (e :: t) = ditherBeforeCapture t := by
  simp [ditherBeforeCapture, h1, h2]

theorem dbc_append_skip (A B : List Ev)
    (h : ∀ e ∈ A, e.isCapture = false ∧ e.isDitherPulse = false) :
    ditherBeforeCapture (A ++ B) = ditherBeforeCapture B := by
  induction A with
  | nil => rfl
  | cons e A ih =>
    have he := h e (List.mem_cons_self e A)
    rw [List.cons_append, dbc_cons_skip e _ he.1 he.2]
    exact ih fun x hx => h x (List.mem_cons_of_mem e hx)

theorem dbc_captureEvs (env : Env) (t : Nat) (f d : String) (p c : Nat) (rest : List Ev) :
    ditherBeforeCapture (captureEvs env t f d p c ++ rest) = false := by
  simp [captureEvs, ditherBeforeCapture, Ev.isCapture, Ev.isDitherPulse]

/-- C1 (counterexample): a run of the sequence command that passes
resolution (M42 resolves) and the altitude gate (45 degrees, no prompt)
but uses the filter identifier X, which is not in the filter table, gets
past the gate (the session directory is created) yet performs zero
capture commands and zero dither pulses, not the two captures and one
dither the claim promises for exposure_count two: the first capture
attempt raises a key lookup error and aborts the run. -/
theorem claim_C1_counterexample :
    (observatory_sequence envOk "M42" "/images" "X" 2 30).1.countP Ev.isMakeDirs = 1 ∧
    (observatory_sequence envOk "M42" "/images" "X" 2 30).1.countP Ev.isCapture = 0 ∧
    (observatory_sequence envOk "M42" "/images" "X" 2 30).1.countP Ev.isDitherPulse = 0 ∧
    ¬ ((observatory_sequence envOk "M42" "/images" "X" 2 30).1.countP Ev.isCapture = 2 ∧
       (observatory_sequence envOk "M42" "/images" "X" 2 30).1.countP Ev.isDitherPulse = 1) := by
  decide

/-- C1 (amended): for every exposure_count N of at least one, a run of
the sequence command that passes resolution and the altitude gate and
whose filter identifier is in the filter table performs exactly N capture
commands and exactly N minus one dither moves, and no dither pulse occurs
before the first capture command. -/
theorem claim_C1_amended (env : Env) (target b f : String) (N t : Nat) (c : Coords)
    (pos : Nat)
    (hres : env.resolve target = some c)
    (hgate : (check_continue_sequence env (env.locAltitude c)).2 = true)
    (hf : filters f = some pos) (hN : 1 ≤ N) :
    (observatory_sequence env target b f N t).1.countP Ev.isCapture = N ∧
    (observatory_sequence env target b f N t).1.countP Ev.isDitherPulse = N - 1 ∧
    ditherBeforeCapture (observatory_sequence env target b f N t).1 = false := by
  have hok := runLoop_ok env f (dirName env b target) t pos hf N 0
  rw [seq_run env target b f N t c hres hgate hok]
  have hcap := runLoop_count_capture env f (dirName env b target) t pos hf N 0
  have hdit := runLoop_count_dither_zero env f (dirName env b target) t pos hf N
  refine ⟨?_, ?_, ?_⟩
  · rcases gate_evs_cases env (env.locAltitude c) with hg | hg <;>
      simp [hg, List.countP_append, hcap, Ev.isCapture]
  · rcases gate_evs_cases env (env.locAltitude c) with hg | hg <;>
      simp [hg, List.countP_append, hdit, Ev.isDitherPulse]
  · match N, hN with
    | n + 1, _ =>
      rw [runLoop_succ env f (dirName env b target) t pos hf 0 n]
      simp only [List.append_assoc, List.cons_append, List.nil_append,
        show (if (0 == 0) = true then ([] : List Ev) else dither) = [] from rfl]
      rw [dbc_cons_skip (Ev.getProp "iOptron IEQ Pro" "GEOGRAPHIC_COORD") _ rfl rfl]
      rw [dbc_append_skip (check_continue_sequence env (env.locAltitude c)).1 _
        (by rcases gate_evs_cases env (env.locAltitude c) with hg | hg <;>
              simp [hg, Ev.isCapture, Ev.isDitherPulse])]
      rw [dbc_cons_skip (Ev.makeDirs (dirName env b target)) _ rfl rfl]
      rw [dbc_cons_skip (Ev.httpGet "/set_dec_guide_mode?mode=multistar") _ rfl rfl]
      rw [dbc_cons_skip (Ev.httpGet "/guide") _ rfl rfl]
      exact dbc_captureEvs env t f (dirName env b target) pos (0 + 1) _

/-- C1 (witness): the amended claim applied to the concrete environment
envOk, target M42, filter R and three exposures: three captures, two
dither moves, no dither pulse before the first capture. -/
theorem claim_C1_witness :
    (observatory_sequence envOk "M42" "/images" "R" 3 30).1.countP Ev.isCapture = 3 ∧
    (observatory_sequence envOk "M42" "/images" "R" 3 30).1.countP Ev.isDitherPulse = 2 ∧
    ditherBeforeCapture (observatory_sequence envOk "M42" "/images" "R" 3 30).1 = false := by
  have h := claim_C1_amended envOk "M42" "/images" "R" 3 30 ⟨83, -5⟩ 2
    (by decide) (by decide) (by decide) (by decide)
  simpa using h

theorem seq_run_fail (env : Env) (target b f : String) (N t : Nat) (c : Coords)
    (hres : env.resolve target = some c)
    (hgate : (check_continue_sequence env (env.locAltitude c)).2 = true)
    (hokf : (runLoop env f (dirName env b target) t 0 N).2 = false) :
    observatory_sequence env target b f N t =
      ([.getProp "iOptron IEQ Pro" "GEOGRAPHIC_COORD"] ++
         (check_continue_sequence env (env.locAltitude c)).1 ++
         [.makeDirs (dirName env b target),
          .httpGet "/set_dec_guide_mode?mode=multistar",
          .httpGet "/guide"] ++
         (runLoop env f (dirName env b target) t 0 N).1,
       false) := by
  simp [observatory_sequence, get_coordinates, hres, check_altitude, create_directory_eq,
    enable_multi_star_guiding, start_guiding, hgate, hokf]

/-- C2: the safety gate proceeds silently at altitudes of at least twenty
degrees (no prompt in the whole run); below twenty degrees it requests
operator confirmation, and a declined confirmation makes the sequence
command abort with only the location read, the prompt and an abort log
line, so no device command, no capture and no slew is issued, and makes
the target command abort likewise without slewing. -/
theorem claim_C2 (env : Env) (target b f : String) (N t : Nat) (c : Coords)
    (hres : env.resolve target = some c) :
    (20 ≤ env.locAltitude c →
      check_continue_sequence env (env.locAltitude c) = ([], true) ∧
      (observatory_sequence env target b f N t).1.countP Ev.isPrompt = 0) ∧
    (env.locAltitude c < 20 →
      (check_continue_sequence env (env.locAltitude c)).1 =
        [.promptOperator (env.locAltitude c)]) ∧
    (env.locAltitude c < 20 → strLower env.promptResponse ≠ "y" →
      observatory_sequence env target b f N t =
        ([.getProp "iOptron IEQ Pro" "GEOGRAPHIC_COORD",
          .promptOperator (env.locAltitude c),
          .logInfo "Sequence aborted due to low altitude."], true) ∧
      (observatory_sequence env target b f N t).1.countP Ev.isDeviceCmd = 0 ∧
      (observatory_sequence env target b f N t).1.countP Ev.isCapture = 0 ∧
      (observatory_sequence env target b f N t).1.countP Ev.isHttp = 0 ∧
      observatory_target env target =
        [.getProp "iOptron IEQ Pro" "GEOGRAPHIC_COORD",
         .promptOperator (env.locAltitude c),
         .logInfo "Aborted slew due to low altitude."] ∧
      (observatory_target env target).countP Ev.isSlew = 0) := by
  refine ⟨?_, ?_, ?_⟩
  · intro halt
    have hg := gate_high env (env.locAltitude c) halt
    refine ⟨hg, ?_⟩
    have hloop := runLoop_countP_zero env f (dirName env b target) t Ev.isPrompt
      (fun pos cc => countP_isPrompt_captureEvs env t f (dirName env b target) pos cc)
      countP_isPrompt_dither N 0
    have hgate : (check_continue_sequence env (env.locAltitude c)).2 = true := by
      rw [hg]
    cases hl : (runLoop env f (dirName env b target) t 0 N).2 with
    | true =>
      rw [seq_run env target b f N t c hres hgate hl]
      simp [List.countP_append, hg, hloop, Ev.isPrompt]
    | false =>
      rw [seq_run_fail env target b f N t c hres hgate hl]
      simp [List.countP_append, hg, hloop, Ev.isPrompt]
  · intro halt
    rw [gate_low env (env.locAltitude c) halt]
  · intro halt hdecl
    have hgatef : (check_continue_sequence env (env.locAltitude c)).2 = false := by
      rw [gate_low env (env.locAltitude c) halt]
      simpa using hdecl
    have hseq := seq_abort env target b f N t c hres hgatef
    have htgt := target_abort env target c hres hgatef
    rw [gate_low env (env.locAltitude c) halt] at hseq htgt
    have hseq2 : observatory_sequence env target b f N t =
        ([.getProp "iOptron IEQ Pro" "GEOGRAPHIC_COORD",
          .promptOperator (env.locAltitude c),
          .logInfo "Sequence aborted due to low altitude."], true) := by
      simpa using hseq
    have htgt2 : observatory_target env target =
        [.getProp "iOptron IEQ Pro" "GEOGRAPHIC_COORD",
         .promptOperator (env.locAltitude c),
         .logInfo "Aborted slew due to low altitude."] := by
      simpa using htgt
    refine ⟨hseq2, ?_, ?_, ?_, htgt2, ?_⟩
    · rw [hseq2]
      simp [Ev.isDeviceCmd]
    · rw [hseq2]
      simp [Ev.isCapture]
    · rw [hseq2]
      simp [Ev.isHttp]
    · rw [htgt2]
      simp [Ev.isSlew]

/-- C2 (witness): at 10 degrees altitude with the operator answering n,
the sequence command aborts after the location read, the prompt and the
abort log line, and the target command aborts without slewing. -/
theorem claim_C2_witness :
    observatory_sequence envLowDecline "M42" "/images" "R" 3 30 =
      ([.getProp "iOptron IEQ Pro" "GEOGRAPHIC_COORD",
        .promptOperator (envLowDecline.locAltitude ⟨83, -5⟩),
        .logInfo "Sequence aborted due to low altitude."], true) ∧
    observatory_target envLowDecline "M42" =
      [.getProp "iOptron IEQ Pro" "GEOGRAPHIC_COORD",
       .promptOperator (envLowDecline.locAltitude ⟨83, -5⟩),
       .logInfo "Aborted slew due to low altitude."] := by
  have h := (claim_C2 envLowDecline "M42" "/images" "R" 3 30 ⟨83, -5⟩ (by decide)).2.2
    (by decide) (by decide)
  exact ⟨h.1, h.2.2.2.2.1⟩

/-- C3: when the resolver does not know the target, the sequence command
emits exactly two error log lines and nothing else: no device command, no
directory creation, no guide-controller request, no prompt. -/
theorem claim_C3 (env : Env) (target b f : String) (N t : Nat)
    (hres : env.resolve target = none) :
    observatory_sequence env target b f N t =
      ([.logError ("Object " ++ target ++ " not found."), .logError "Target not found."],
       true) ∧
    (observatory_sequence env target b f N t).1.countP Ev.isDeviceCmd = 0 ∧
    (observatory_sequence env target b f N t).1.countP Ev.isMakeDirs = 0 ∧
    (observatory_sequence env target b f N t).1.countP Ev.isHttp = 0 ∧
    (observatory_sequence env target b f N t).1.countP Ev.isPrompt = 0 ∧
    (observatory_sequence env target b f N t).1.all Ev.isLogError = true ∧
    (observatory_sequence env target b f N t).1.countP Ev.isLogError = 2 := by
  have h := seq_resolve_none env target b f N t hres
  refine ⟨h, ?_, ?_, ?_, ?_, ?_, ?_⟩ <;> rw [h] <;>
    simp [Ev.isDeviceCmd, Ev.isMakeDirs, Ev.isHttp, Ev.isPrompt, Ev.isLogError]

/-- C3 (witness): the unresolvable target Ghost yields only the two error
log lines and zero device commands. -/
theorem claim_C3_witness :
    observatory_sequence envOk "Ghost" "/images" "R" 3 30 =
      ([.logError ("Object " ++ "Ghost" ++ " not found."), .logError "Target not found."],
       true) ∧
    (observatory_sequence envOk "Ghost" "/images" "R" 3 30).1.countP Ev.isDeviceCmd = 0 := by
  have h := claim_C3 envOk "Ghost" "/images" "R" 3 30 (by decide)
  exact ⟨h.1, h.2.1⟩

/-- C10: when the altitude gate prompts (altitude below twenty degrees),
the run proceeds exactly when the lowercased operator response is the
single letter y; any other response, including the word yes, declines. -/
theorem claim_C10 (env : Env) (a : Rat) (h : a < 20) :
    ((check_continue_sequence env a).2 = true ↔ strLower env.promptResponse = "y") := by
  rw [gate_low env a h]
  simp

/-- C10 (witness): at 10 degrees, the response yes declines (its
lowercasing is not the single letter y) while the response uppercase Y
proceeds. -/
theorem claim_C10_witness :
    (10 : Rat) < 20 ∧
    ((check_continue_sequence envLowYes 10).2 = true ↔
      strLower envLowYes.promptResponse = "y") ∧
    (check_continue_sequence envLowYes 10).2 = false ∧
    (check_continue_sequence envLowUpperY 10).2 = true :=
  ⟨by decide, claim_C10 envLowYes 10 (by decide), by decide, by decide⟩

/-- C4: in every run of the sequence command that completes normally
(resolution succeeds, the altitude gate passes and the filter is in the
table), the trace splits as a prefix without captures, the guide-start
request, a middle part holding all N capture commands, the guide-stop
request, and a capture-free tail, so guiding starts before the first
capture and stops only after the last one. -/
theorem claim_C4 (env : Env) (target b f : String) (N t : Nat) (c : Coords) (pos : Nat)
    (hres : env.resolve target = some c)
    (hgate : (check_continue_sequence env (env.locAltitude c)).2 = true)
    (hf : filters f = some pos) :
    ∃ pre mid post : List Ev,
      (observatory_sequence env target b f N t).1 =
        pre ++ [Ev.httpGet "/guide"] ++ mid ++ [Ev.httpGet "/stop_capture"] ++ post ∧
      pre.countP Ev.isCapture = 0 ∧
      mid.countP Ev.isCapture = N ∧
      post.countP Ev.isCapture = 0 ∧
      (observatory_sequence env target b f N t).2 = true := by
  have hok := runLoop_ok env f (dirName env b target) t pos hf N 0
  have hseq := seq_run env target b f N t c hres hgate hok
  refine ⟨[Ev.getProp "iOptron IEQ Pro" "GEOGRAPHIC_COORD"] ++
      (check_continue_sequence env (env.locAltitude c)).1 ++
      [Ev.makeDirs (dirName env b target), Ev.httpGet "/set_dec_guide_mode?mode=multistar"],
    (runLoop env f (dirName env b target) t 0 N).1,
    [Ev.logInfo ("Sequence complete. Images stored in " ++ dirName env b target ++ ".")],
    ?_, ?_, ?_, ?_, ?_⟩
  · rw [hseq]
    simp
  · rcases gate_evs_cases env (env.locAltitude c) with hg | hg <;>
      simp [hg, List.countP_append, Ev.isCapture]
  · exact runLoop_count_capture env f (dirName env b target) t pos hf N 0
  · simp [Ev.isCapture]
  · rw [hseq]

/-- C4 (witness): the decomposition applied to envOk, target M42, filter
R and three exposures. -/
theorem claim_C4_witness :
    ∃ pre mid post : List Ev,
      (observatory_sequence envOk "M42" "/images" "R" 3 30).1 =
        pre ++ [Ev.httpGet "/guide"] ++ mid ++ [Ev.httpGet "/stop_capture"] ++ post ∧
      pre.countP Ev.isCapture = 0 ∧
      mid.countP Ev.isCapture = 3 ∧
      post.countP Ev.isCapture = 0 ∧
      (observatory_sequence envOk "M42" "/images" "R" 3 30).2 = true :=
  claim_C4 envOk "M42" "/images" "R" 3 30 ⟨83, -5⟩ 2 (by decide) (by decide) (by decide)

/-- C5 (code-bug evidence): with a guide controller whose enable and
start calls both answer ERR, enable_multi_star_guiding and start_guiding
report failure, yet the sequence run still issues both capture commands
and completes normally: the source ignores the two Booleans, so no
guiding-failed condition is surfaced and imaging proceeds. -/
theorem claim_C5_bug :
    (enable_multi_star_guiding envGuideFail).2 = false ∧
    (start_guiding envGuideFail).2 = false ∧
    (observatory_sequence envGuideFail "M42" "/images" "R" 2 1).1.countP Ev.isCapture = 2 ∧
    (observatory_sequence envGuideFail "M42" "/images" "R" 2 1).2 = true := by
  decide

/-- C9: a sequence run with exposure_count zero that passes resolution
and the altitude gate still creates the session directory, issues the
guide-enable, guide-start and guide-stop requests and logs completion,
while performing zero capture commands and zero dither pulses. -/
theorem claim_C9 (env : Env) (target b f : String) (t : Nat) (c : Coords)
    (hres : env.resolve target = some c)
    (hgate : (check_continue_sequence env (env.locAltitude c)).2 = true) :
    observatory_sequence env target b f 0 t =
      ([.getProp "iOptron IEQ Pro" "GEOGRAPHIC_COORD"] ++
         (check_continue_sequence env (env.locAltitude c)).1 ++
         [.makeDirs (dirName env b target),
          .httpGet "/set_dec_guide_mode?mode=multistar",
          .httpGet "/guide",
          .httpGet "/stop_capture",
          .logInfo ("Sequence complete. Images stored in " ++ dirName env b target ++ ".")],
       true) ∧
    (observatory_sequence env target b f 0 t).1.countP Ev.isCapture = 0 ∧
    (observatory_sequence env target b f 0 t).1.countP Ev.isDitherPulse = 0 ∧
    (observatory_sequence env target b f 0 t).1.countP Ev.isMakeDirs = 1 := by
  have hseq := seq_run env target b f 0 t c hres hgate rfl
  have hseq2 : observatory_sequence env target b f 0 t =
      ([.getProp "iOptron IEQ Pro" "GEOGRAPHIC_COORD"] ++
         (check_continue_sequence env (env.locAltitude c)).1 ++
         [.makeDirs (dirName env b target),
          .httpGet "/set_dec_guide_mode?mode=multistar",
          .httpGet "/guide",
          .httpGet "/stop_capture",
          .logInfo ("Sequence complete. Images stored in " ++ dirName env b target ++ ".")],
       true) := by
    rw [hseq]
    simp [runLoop_zero]
  refine ⟨hseq2, ?_, ?_, ?_⟩ <;> rw [hseq2] <;>
    rcases gate_evs_cases env (env.locAltitude c) with hg | hg <;>
      simp [hg, List.countP_append, Ev.isCapture, Ev.isDitherPulse, Ev.isMakeDirs]

/-- C9 (witness): envOk with zero exposures: directory, the three guide
requests and the completion log, no captures, no dithers. -/
theorem claim_C9_witness :
    observatory_sequence envOk "M42" "/images" "R" 0 30 =
      ([.getProp "iOptron IEQ Pro" "GEOGRAPHIC_COORD"] ++
         (check_continue_sequence envOk (envOk.locAltitude ⟨83, -5⟩)).1 ++
         [.makeDirs (dirName envOk "/images" "M42"),
          .httpGet "/set_dec_guide_mode?mode=multistar",
          .httpGet "/guide",
          .httpGet "/stop_capture",
          .logInfo ("Sequence complete. Images stored in " ++
            dirName envOk "/images" "M42" ++ ".")],
       true) ∧
    (observatory_sequence envOk "M42" "/images" "R" 0 30).1.countP Ev.isCapture = 0 ∧
    (observatory_sequence envOk "M42" "/images" "R" 0 30).1.countP Ev.isDitherPulse = 0 ∧
    (observatory_sequence envOk "M42" "/images" "R" 0 30).1.countP Ev.isMakeDirs = 1 :=
  claim_C9 envOk "M42" "/images" "R" 30 ⟨83, -5⟩ (by decide) (by decide)

@[simp]
theorem saveTargets_nil : saveTargets [] = [] := rfl

@[simp]
theorem saveTargets_getProp (d p : String) (t : List Ev) :
    saveTargets (.getProp d p :: t) = saveTargets t := rfl

@[simp]
theorem saveTargets_makeDirs (p : String) (t : List Ev) :
    saveTargets (.makeDirs p :: t) = saveTargets t := rfl

@[simp]
theorem saveTargets_httpGet (p : String) (t : List Ev) :
    saveTargets (.httpGet p :: t) = saveTargets t := rfl

@[simp]
theorem saveTargets_logInfo (m : String) (t : List Ev) :
    saveTargets (.logInfo m :: t) = saveTargets t := rfl

@[simp]
theorem saveTargets_prompt (a : Rat) (t : List Ev) :
    saveTargets (.promptOperator a :: t) = saveTargets t := rfl

/-- C6 (amended): in a normally completing sequence run whose
exposure_count is at most 9999, the commanded frame files are exactly, in
order, the session directory joined with
filtername underscore timestamp underscore index dot fits for the indices
one up to N, each matching the four-digit zero-padded pattern of the
specification; for larger counts the indices from 10000 on are written
with five or more digits. -/
theorem claim_C6_amended (env : Env) (target b f : String) (N t : Nat) (c : Coords)
    (pos : Nat)
    (hres : env.resolve target = some c)
    (hgate : (check_continue_sequence env (env.locAltitude c)).2 = true)
    (hf : filters f = some pos) (hN : N ≤ 9999) :
    saveTargets (observatory_sequence env target b f N t).1 =
      (List.range N).map (fun k => dirName env b target ++ "/" ++ frameBase env f (k + 1)) ∧
    (∀ k, k < N → frameNameOk f env.timestamp (frameBase env f (k + 1)) = true) := by
  constructor
  · have hok := runLoop_ok env f (dirName env b target) t pos hf N 0
    rw [seq_run env target b f N t c hres hgate hok]
    have hsave := runLoop_saveTargets env f (dirName env b target) t pos hf N 0
    have hfun : ∀ k : Nat, frameFile env (dirName env b target) f (0 + k + 1) =
        dirName env b target ++ "/" ++ frameBase env f (k + 1) := by
      intro k
      rw [frameFile_assoc]
      norm_num
    rcases gate_evs_cases env (env.locAltitude c) with hg | hg <;>
      simp [hg, hsave, hfun] <;>
      exact fun a _ => frameFile_assoc env (dirName env b target) f (a + 1)
  · intro k hk
    exact frameNameOk_frameBase env f (k + 1) (by omega)

/-- C6 (counterexample): in a run with exposure_count 10000 the frame
file of capture number 10000 is commanded inside the session directory,
but its name does not match the four-digit pattern of the claim: the
index part is the five characters of 10000. -/
theorem claim_C6_counterexample :
    (dirName envOk "/images" "M42" ++ "/" ++ frameBase envOk "R" 10000) ∈
      saveTargets (observatory_sequence envOk "M42" "/images" "R" 10000 1).1 ∧
    frameNameOk "R" envOk.timestamp (frameBase envOk "R" 10000) = false := by
  constructor
  · have hf : filters "R" = some 2 := rfl
    have hok := runLoop_ok envOk "R" (dirName envOk "/images" "M42") 1 2 hf 10000 0
    rw [seq_run envOk "M42" "/images" "R" 10000 1 ⟨83, -5⟩ (by decide) (by decide) hok]
    have hsave := runLoop_saveTargets envOk "R" (dirName envOk "/images" "M42") 1 2 hf 10000 0
    have hg : (check_continue_sequence envOk (envOk.locAltitude ⟨83, -5⟩)).1 = [] := by
      decide
    rw [saveTargets_append, saveTargets_append, saveTargets_append, saveTargets_append,
      hg, hsave]
    simp only [saveTargets_nil, saveTargets_getProp, saveTargets_makeDirs,
      saveTargets_httpGet, saveTargets_logInfo, List.nil_append, List.append_nil]
    refine List.mem_map.mpr ⟨9999, List.mem_range.mpr (by norm_num), ?_⟩
    rw [frameFile_assoc]
  · decide

/-- C6 (witness): the amended claim applied to envOk with three
exposures: the three commanded frame files are the session directory
joined with the pattern names of indices one to three, each matching. -/
theorem claim_C6_witness :
    saveTargets (observatory_sequence envOk "M42" "/images" "R" 3 30).1 =
      (List.range 3).map
        (fun k => dirName envOk "/images" "M42" ++ "/" ++ frameBase envOk "R" (k + 1)) ∧
    (∀ k, k < 3 → frameNameOk "R" envOk.timestamp (frameBase envOk "R" (k + 1)) = true) :=
  claim_C6_amended envOk "M42" "/images" "R" 3 30 ⟨83, -5⟩ 2
    (by decide) (by decide) (by decide) (by decide)

/-- C7: a filter identifier outside the fixed table L R G B H O fails the
table lookup, and capture_image fails before issuing any device action
(it returns no event list at all), rather than substituting a default
filter position. -/
theorem claim_C7 (env : Env) (t : Nat) (f d : String) (cnt : Nat)
    (h : f ∉ ["L", "R", "G", "B", "H", "O"]) :
    filters f = none ∧ capture_image env t f d cnt = none := by
  have hf : filters f = none := by
    simp only [List.mem_cons, List.not_mem_nil, or_false, not_or] at h
    obtain ⟨h1, h2, h3, h4, h5, h6⟩ := h
    have b1 : (f == "L") = false := beq_eq_false_iff_ne.mpr h1
    have b2 : (f == "R") = false := beq_eq_false_iff_ne.mpr h2
    have b3 : (f == "G") = false := beq_eq_false_iff_ne.mpr h3
    have b4 : (f == "B") = false := beq_eq_false_iff_ne.mpr h4
    have b5 : (f == "H") = false := beq_eq_false_iff_ne.mpr h5
    have b6 : (f == "O") = false := beq_eq_false_iff_ne.mpr h6
    simp [filters, filtersTable, List.lookup, b1, b2, b3, b4, b5, b6]
  exact ⟨hf, capture_image_none env t f d cnt hf⟩

/-- C7 (witness): the filter identifier X is not in the table; its lookup
fails and capture_image returns nothing. -/
theorem claim_C7_witness :
    filters "X" = none ∧ capture_image envOk 1 "X" "/images" 1 = none :=
  claim_C7 envOk 1 "X" "/images" 1 (by decide)

/-- C8 (counterexample): the two dither pulses are the unit value on the
north-south axis and the unit value on the west-east axis: both have the
same sign, so there is no value v with the north-south pulse v and the
west-east pulse minus v, contradicting the opposite-direction reading of
the claim. -/
theorem claim_C8_counterexample :
    pulseValues dither "TELESCOPE_MOTION_NS" = [1] ∧
    pulseValues dither "TELESCOPE_MOTION_WE" = [1] ∧
    ¬ ∃ v : Int, pulseValues dither "TELESCOPE_MOTION_NS" = [v] ∧
        pulseValues dither "TELESCOPE_MOTION_WE" = [-v] := by
  refine ⟨rfl, rfl, ?_⟩
  rintro ⟨v, hNS, hWE⟩
  rw [show pulseValues dither "TELESCOPE_MOTION_NS" = [1] from rfl] at hNS
  rw [show pulseValues dither "TELESCOPE_MOTION_WE" = [1] from rfl] at hWE
  have hv : v = 1 := by simpa using hNS.symm
  have hv2 : -v = 1 := by simpa using hWE.symm
  omega

/-- C8 (amended): each dither move pulses the two mount motion axes in
the same direction (a unit write on the north-south axis, then a unit
write on the west-east axis), with a fixed one-second settle delay after
each pulse, then zeroes both axes; and in the capture loop every
non-first iteration runs this dither block immediately before its capture
block. -/
theorem claim_C8_amended (env : Env) (f d : String) (t : Nat) (pos i r : Nat)
    (hf : filters f = some pos) (hi : i ≠ 0) :
    (runLoop env f d t i (r + 1)).1 =
      dither ++ captureEvs env t f d pos (i + 1) ++ (runLoop env f d t (i + 1) r).1 ∧
    dither =
      [.sendNumber "iOptron IEQ Pro" "TELESCOPE_MOTION_NS" "TELESCOPE_MOTION_NS_VALUE" 1,
       .sleep 1,
       .sendNumber "iOptron IEQ Pro" "TELESCOPE_MOTION_WE" "TELESCOPE_MOTION_WE_VALUE" 1,
       .sleep 1,
       .sendNumber "iOptron IEQ Pro" "TELESCOPE_MOTION_NS" "TELESCOPE_MOTION_NS_VALUE" 0,
       .sendNumber "iOptron IEQ Pro" "TELESCOPE_MOTION_WE" "TELESCOPE_MOTION_WE_VALUE" 0] ∧
    pulseValues dither "TELESCOPE_MOTION_NS" = [1] ∧
    pulseValues dither "TELESCOPE_MOTION_WE" = [1] := by
  refine ⟨?_, rfl, rfl, rfl⟩
  rw [runLoop_succ env f d t pos hf i r]
  have hiz : (i == 0) = false := by simpa using hi
  simp [hiz]

/-- C8 (witness): the amended claim at the second loop iteration of a
concrete run: the dither block, then the capture block of frame two. -/
theorem claim_C8_witness :
    (runLoop envOk "R" "/images" 1 1 1).1 =
      dither ++ captureEvs envOk 1 "R" "/images" 2 2 ++ (runLoop envOk "R" "/images" 1 2 0).1 ∧
    dither =
      [.sendNumber "iOptron IEQ Pro" "TELESCOPE_MOTION_NS" "TELESCOPE_MOTION_NS_VALUE" 1,
       .sleep 1,
       .sendNumber "iOptron IEQ Pro" "TELESCOPE_MOTION_WE" "TELESCOPE_MOTION_WE_VALUE" 1,
       .sleep 1,
       .sendNumber "iOptron IEQ Pro" "TELESCOPE_MOTION_NS" "TELESCOPE_MOTION_NS_VALUE" 0,
       .sendNumber "iOptron IEQ Pro" "TELESCOPE_MOTION_WE" "TELESCOPE_MOTION_WE_VALUE" 0] ∧
    pulseValues dither "TELESCOPE_MOTION_NS" = [1] ∧
    pulseValues dither "TELESCOPE_MOTION_WE" = [1] :=
  claim_C8_amended envOk "R" "/images" 1 2 1 0 (by decide) (by decide)
